import Mathlib

/-!
Verification of the submission content-extraction pipeline of the
python-classroom-grader repository. The Lean definitions below are a shallow
embedding of `src/core/grader.py` (`Grader._extract_submission_content` and its
attachment handlers), `src/services/forms_api.py` (response matching and
transcript rendering) and `src/services/drive_api.py`
(`DriveService.download_file_content`). Python dictionaries coming from the
Google APIs are modelled as structures whose `Option` fields record key
presence; the remote services themselves are modelled as environment records of
functions, so theorems quantify over every possible collaborator behaviour.
-/

/-! ## Python string primitives -/

/-- Prefix test on char lists: does the second list start with the first? -/
def listIsPre : List Char → List Char → Bool
  | [], _ => true
  | _ :: _, [] => false
  | a :: as, b :: bs => a == b && listIsPre as bs

/-- Substring containment on char lists, the semantics of Python `in` on str. -/
def listIsInf (needle : List Char) : List Char → Bool
  | [] => needle.isEmpty
  | c :: rest => listIsPre needle (c :: rest) || listIsInf needle rest

/-- Python `needle in hay` for strings. -/
def strContains (hay needle : String) : Bool := listIsInf needle.toList hay.toList

/-- Python `s.startswith(pre)`. -/
def strStarts (s pre : String) : Bool := listIsPre pre.toList s.toList

/-- Scanner for Python `str.split(sep)` with a non-empty separator. The fuel is
an upper bound on the scanned length, instantiated with the string length so
that the degenerate out-of-fuel case is never reached. -/
def splitOnCharsAux (sep : List Char) : Nat → List Char → List Char → List (List Char)
  | _, [], acc => [acc.reverse]
  | 0, l, acc => [acc.reverse ++ l]
  | fuel + 1, c :: rest, acc =>
    if listIsPre sep (c :: rest) && !sep.isEmpty then
      acc.reverse :: splitOnCharsAux sep fuel ((c :: rest).drop sep.length) []
    else
      splitOnCharsAux sep fuel rest (c :: acc)

/-- Python `s.split(sep)` for a non-empty separator string. -/
def pySplit (s sep : String) : List String :=
  (splitOnCharsAux sep.toList s.length s.toList []).map String.mk

/-- Whitespace characters removed by Python `str.strip()`. -/
def isPySpace (c : Char) : Bool :=
  c == ' ' || c == '\t' || c == '\n' || c == '\r' || c == '\x0b' || c == '\x0c'

/-- Python `s.strip()`. -/
def pyStrip (s : String) : String :=
  String.mk (((s.data.dropWhile isPySpace).reverse.dropWhile isPySpace).reverse)

/-- Python `sep.join(parts)`. -/
def pyJoin (sep : String) : List String → String
  | [] => ""
  | x :: xs => xs.foldl (fun acc y => acc ++ sep ++ y) x

/-- Truthiness of an optional string: Python treats both a missing value and
the empty string as false. -/
def optTruthy : Option String → Bool
  | none => false
  | some s => !s.isEmpty

/-- Truthiness of an optional byte payload (`if not file_bytes`). -/
def bytesTruthy : Option (List UInt8) → Bool
  | none => false
  | some l => !l.isEmpty

/-- Rendering of an optional string inside an f-string: Python prints `None`
for a missing value. -/
def pyShow : Option String → String
  | none => "None"
  | some s => s

/-- Insertion into a Python dict modelled as an insertion-ordered association
list: an existing key keeps its position and gets the new value, a new key is
appended. -/
def pyDictInsert {α : Type} (d : List (String × α)) (k : String) (v : α) : List (String × α) :=
  if d.any (fun p => p.1 == k) then
    d.map (fun p => if p.1 == k then (p.1, v) else p)
  else d ++ [(k, v)]

/-- Python `d.get(k)` on the association-list dict model. -/
def pyDictGet {α : Type} (d : List (String × α)) (k : String) : Option α :=
  (d.find? (fun p => p.1 == k)).map (fun p => p.2)

/-! ## Byte decoding (`bytes.decode` with the utf-8 and latin-1 codecs) -/

/-- The latin-1 codec maps a byte to the code point of the same value; it is
defined on every byte from 0 to 255. -/
def latin1DecodeByte (b : UInt8) : Option Char :=
  if b.toNat < 256 then some (Char.ofNat b.toNat) else none

/-- Python `bytes.decode("latin-1")`. -/
def latin1Decode : List UInt8 → Option (List Char)
  | [] => some []
  | b :: bs =>
    match latin1DecodeByte b, latin1Decode bs with
    | some c, some cs => some (c :: cs)
    | _, _ => none

/-- Continuation-byte test for utf-8 (trailing bytes of a sequence). -/
def isUtf8Cont (b : UInt8) : Bool := 0x80 ≤ b.toNat && b.toNat < 0xC0

/-- Value carried by a utf-8 continuation byte. -/
def utf8ContVal (b : UInt8) : Nat := b.toNat - 0x80

/-- Strict decoding of one utf-8 scalar from a lead byte and the remaining
bytes, rejecting overlong encodings and surrogate code points as Python does. -/
def utf8DecodeOne (b : UInt8) (rest : List UInt8) : Option (Char × List UInt8) :=
  let n := b.toNat
  if n < 0x80 then some (Char.ofNat n, rest)
  else if n < 0xC2 then none
  else if n < 0xE0 then
    match rest with
    | b1 :: r =>
      if isUtf8Cont b1 then some (Char.ofNat ((n - 0xC0) * 0x40 + utf8ContVal b1), r)
      else none
    | [] => none
  else if n < 0xF0 then
    match rest with
    | b1 :: b2 :: r =>
      if isUtf8Cont b1 && isUtf8Cont b2
          && !(n == 0xE0 && b1.toNat < 0xA0)
          && !(n == 0xED && 0xA0 ≤ b1.toNat) then
        some (Char.ofNat ((n - 0xE0) * 0x1000 + utf8ContVal b1 * 0x40 + utf8ContVal b2), r)
      else none
    | _ => none
  else if n < 0xF5 then
    match rest with
    | b1 :: b2 :: b3 :: r =>
      if isUtf8Cont b1 && isUtf8Cont b2 && isUtf8Cont b3
          && !(n == 0xF0 && b1.toNat < 0x90)
          && !(n == 0xF4 && 0x90 ≤ b1.toNat) then
        some (Char.ofNat ((n - 0xF0) * 0x40000 + utf8ContVal b1 * 0x1000
          + utf8ContVal b2 * 0x40 + utf8ContVal b3), r)
      else none
    | _ => none
  else none

/-- Fuel-driven utf-8 decoding loop; the fuel is instantiated with the byte
count, which bounds the number of decoded characters. -/
def utf8DecodeAux : Nat → List UInt8 → Option (List Char)
  | _, [] => some []
  | 0, _ :: _ => none
  | fuel + 1, b :: rest =>
    match utf8DecodeOne b rest with
    | some (c, rest') => (utf8DecodeAux fuel rest').map (fun cs => c :: cs)
    | none => none

/-- Python `bytes.decode("utf-8")`. -/
def utf8Decode (bs : List UInt8) : Option (List Char) :=
  utf8DecodeAux bs.length bs

/-! ## Data model: exceptions, attachments, forms, submissions -/

/-- Exceptions crossing the collaborator boundary in `grader.py`: the handlers
catch `(APIError, ContentExtractionError)` with one message format and every
other exception with another, so only the class and the rendered message
matter. -/
inductive PyExc where
  | apiError (msg : String)
  | contentExtractionError (msg : String)
  | other (msg : String)
deriving DecidableEq

/-- Rendered message of an exception, the `{e}` of the f-strings. -/
def PyExc.msg : PyExc → String
  | .apiError m => m
  | .contentExtractionError m => m
  | .other m => m

/-- Whether `except (APIError, ContentExtractionError)` catches the
exception. -/
def PyExc.isCaught : PyExc → Bool
  | .apiError _ => true
  | .contentExtractionError _ => true
  | .other _ => false

/-- An element of an `answers` / `options` list: a dict with an optional
`value` key. -/
structure AnswerObj where
  value : Option String
deriving DecidableEq

/-- The `correctAnswers` dict of quiz grading metadata. -/
structure CorrectAnswers where
  answers : Option (List AnswerObj)
deriving DecidableEq

/-- The `grading` dict of a quiz question. -/
structure GradingInfo where
  correctAnswers : Option CorrectAnswers
deriving DecidableEq

/-- The `choiceQuestion` dict of a choice question. -/
structure ChoiceQuestion where
  options : Option (List AnswerObj)
deriving DecidableEq

/-- The `question` dict nested inside an item's `questionItem`; the source
always accesses `item['questionItem']['question']`, so the inner wrapper is
collapsed into this structure. -/
structure FormQuestion where
  questionId : Option String
  questionType : Option String
  grading : Option GradingInfo
  choiceQuestion : Option ChoiceQuestion
deriving DecidableEq

/-- One entry of a form structure's `items` list. `itemId` is required by the
Forms API (the source indexes `item['itemId']` without a default). -/
structure FormItem where
  itemId : String
  title : Option String
  questionItem : Option FormQuestion
deriving DecidableEq

/-- The `info` dict of a form structure. -/
structure FormInfo where
  title : Option String
deriving DecidableEq

/-- A form structure as returned by `FormsService.get_form`. -/
structure FormStructure where
  info : Option FormInfo
  items : Option (List FormItem)
deriving DecidableEq

/-- The `textAnswers` dict of one answer entry. -/
structure TextAnswers where
  answers : Option (List AnswerObj)
deriving DecidableEq

/-- The per-question entry of a response's `answers` dict. -/
structure AnswerEntry where
  textAnswers : Option TextAnswers
deriving DecidableEq

/-- Truthiness of an answer entry dict (`if answer_data:`). -/
def answerEntryTruthy (e : AnswerEntry) : Bool := e.textAnswers.isSome

/-- One form response as returned by `FormsService.list_responses`. -/
structure FormResponse where
  respondentEmail : Option String
  responseId : Option String
  answers : Option (List (String × AnswerEntry))
  totalScore : Option Int
deriving DecidableEq

/-- Truthiness of a response dict: false exactly when the dict is empty, which
in this model means every key is absent. -/
def pyRespFalsy (r : FormResponse) : Bool :=
  r.respondentEmail.isNone && r.responseId.isNone && r.answers.isNone && r.totalScore.isNone

/-- Python `if not matching_response` over an optional response. -/
def pyOptRespFalsy : Option FormResponse → Bool
  | none => true
  | some r => pyRespFalsy r

/-- One question of the structured Q&A data built by
`extract_student_form_data`. -/
structure SFDQuestion where
  question_id : String
  question_text : String
  student_answer : Option (List String)
  correct_answer : Option (List AnswerObj)
  is_correct : Option Bool
deriving DecidableEq

/-- The structured per-response data stored into the submission under
`form_response_data`. -/
structure StudentFormData where
  respondent_email : Option String
  response_id : Option String
  questions : List SFDQuestion
  score : Option Int
deriving DecidableEq

/-- One output of `format_responses_for_llm`. -/
structure FormattedResponse where
  respondent_email : String
  response_id : String
  formatted_text : String
deriving DecidableEq

/-- The `driveFile` payload of an attachment. -/
structure DriveFileAtt where
  id : Option String
  title : Option String
deriving DecidableEq

/-- The `form` payload of an attachment. -/
structure FormAtt where
  formUrl : Option String
  responseUrl : Option String
  title : Option String
deriving DecidableEq

/-- The `link` payload of an attachment. -/
structure LinkAtt where
  url : Option String
  title : Option String
deriving DecidableEq

/-- An attachment dict; each `Option` field records the presence of the
corresponding key, which is what the classifier predicates test. -/
structure Attachment where
  driveFile : Option DriveFileAtt
  form : Option FormAtt
  link : Option LinkAtt
deriving DecidableEq

/-- A student submission record, with the fields read or written by
`_extract_submission_content`. `attachments` models
`submission.get('assignmentSubmission', {}).get('attachments', [])`;
`courseWork` the optional `courseWork` key reduced to its
`.get('materials', [])`; `assignment_attachments` the optional key of the same
name; `form_response_data` the key written by the form handler. -/
structure Submission where
  id : Option String
  userId : Option String
  attachments : List Attachment
  courseWork : Option (List Attachment)
  assignment_attachments : Option (List Attachment)
  student_email : Option String
  form_response_data : Option (List StudentFormData)
deriving DecidableEq

/-- The collaborator services consumed by the grader handlers:
`DriveService.download_file_content`, `FormsService.parse_form_and_responses`,
and the document-text reader invoked through `docs_service`. -/
structure GraderEnv where
  download_file_content : String → Except PyExc (Option String × Option (List UInt8))
  parse_form_and_responses : String → Except PyExc (FormStructure × List FormResponse)
  get_document_text : String → Except PyExc String

/-! ## forms_api.py -/

/-- Embedding of `FormsService.match_responses_to_emails`: builds the
email-to-response dict, keeping only responses whose `respondentEmail` is
truthy and listed in `student_emails`. -/
def match_responses_to_emails (form_responses : List FormResponse) (student_emails : List String) :
    List (String × FormResponse) :=
  form_responses.foldl
    (fun email_to_response response =>
      match response.respondentEmail with
      | some e =>
        if !e.isEmpty && student_emails.contains e then
          pyDictInsert email_to_response e response
        else email_to_response
      | none => email_to_response)
    []

/-- One entry of `get_form_questions_and_correct_answers`. -/
structure QuestionMeta where
  question_id : String
  question_text : String
  question_type : String
  correct_answers : Option CorrectAnswers
deriving DecidableEq

/-- Embedding of `FormsService.get_form_questions_and_correct_answers`. -/
def get_form_questions_and_correct_answers (form_structure : FormStructure) : List QuestionMeta :=
  (form_structure.items.getD []).filterMap (fun item =>
    match item.questionItem with
    | some q =>
      some { question_id := q.questionId.getD item.itemId
             question_text := item.title.getD ""
             question_type := q.questionType.getD "UNKNOWN"
             correct_answers := q.grading.bind (fun g => g.correctAnswers) }
    | none => none)

/-- Python `==` between the extracted string list `student_answer` and the raw
dict list `correct` in `extract_student_form_data`: a str never equals a dict,
so the two lists compare equal exactly when both are empty. -/
def pyEqStrListObjList (sa : List String) (ca : List AnswerObj) : Bool :=
  sa.isEmpty && ca.isEmpty

/-- Embedding of `FormsService.extract_student_form_data`. -/
def extract_student_form_data (form_structure : FormStructure) (form_response : FormResponse) :
    StudentFormData :=
  let questions_meta := get_form_questions_and_correct_answers form_structure
  let answers := form_response.answers.getD []
  { respondent_email := form_response.respondentEmail
    response_id := form_response.responseId
    score := form_response.totalScore
    questions := questions_meta.map (fun q =>
      let student_answer : Option (List String) :=
        match pyDictGet answers q.question_id with
        | some entry =>
          some (((entry.textAnswers.bind (fun t => t.answers)).getD []).filterMap
            (fun a => a.value))
        | none => none
      let correct : Option (List AnswerObj) := q.correct_answers.bind (fun ca => ca.answers)
      let is_correct : Option Bool :=
        match student_answer, correct with
        | some sa, some ca =>
          if !sa.isEmpty && !ca.isEmpty then some (pyEqStrListObjList sa ca) else none
        | _, _ => none
      { question_id := q.question_id
        question_text := q.question_text
        student_answer := student_answer
        correct_answer := correct
        is_correct := is_correct }) }

/-- The text appended to `output_text` for one question of the dict built by
`format_responses_for_llm`; the appended fragment never depends on the
accumulator, so the `+=` loop is this map followed by concatenation. -/
def render_llm_question (answers : List (String × AnswerEntry)) (entry : String × FormItem) :
    String :=
  let item_id := entry.1
  let question_data := entry.2
  let question_info := question_data.questionItem
  let question_title := question_data.title.getD ("Question ID " ++ item_id)
  let question_id := (question_info.bind (fun q => q.questionId)).getD item_id
  let opts := ((question_info.bind (fun q => q.choiceQuestion)).bind (fun c => c.options)).getD []
  let ca := (((question_info.bind (fun q => q.grading)).bind (fun g => g.correctAnswers)).bind
    (fun c => c.answers)).getD []
  "Q: " ++ question_title ++ "\n"
    ++ (if !opts.isEmpty then
          "Options: " ++ pyJoin ", " (opts.map (fun o => o.value.getD "")) ++ "\n"
        else "")
    ++ (if !ca.isEmpty then
          "Correct Answer: " ++ pyJoin ", " (ca.map (fun a => a.value.getD "")) ++ "\n"
        else "")
    ++ (match pyDictGet answers question_id with
        | some answer_data =>
          if answerEntryTruthy answer_data then
            "A: " ++ pyJoin ", " (((answer_data.textAnswers.bind (fun t => t.answers)).getD []).map
              (fun a => a.value.getD "")) ++ "\n\n"
          else "A: (No answer provided)\n\n"
        | none => "A: (No answer provided)\n\n")

/-- Embedding of `FormsService.format_responses_for_llm`. -/
def format_responses_for_llm (form_structure : FormStructure)
    (form_responses : List FormResponse) : List FormattedResponse :=
  let questions : List (String × FormItem) :=
    ((form_structure.items.getD []).filter (fun item => item.questionItem.isSome)).foldl
      (fun acc item => pyDictInsert acc item.itemId item) []
  form_responses.map (fun response =>
    let respondent_email := response.respondentEmail.getD "anonymous"
    let response_id := response.responseId.getD "unknown"
    let header := "Form Title: "
      ++ ((form_structure.info.bind (fun i => i.title)).getD "Untitled Form") ++ "\n"
      ++ "Respondent: " ++ respondent_email ++ "\nResponse ID: " ++ response_id ++ "\n---\n\n"
    let answers := response.answers.getD []
    let output_text := (questions.map (render_llm_question answers)).foldl
      (fun acc t => acc ++ t) header
    { respondent_email := respondent_email
      response_id := response_id
      formatted_text := pyStrip output_text })

/-! ## drive_api.py -/

/-- Exceptions around `DriveService.download_file_content`: the raw `HttpError`
of the HTTP client (identified by status), the `APIError` raised by
`get_file_metadata`, `ContentExtractionError`, and any other exception. -/
inductive DriveExc where
  | httpError (status : Nat) (msg : String)
  | apiError (msg : String)
  | contentExtractionError (msg : String)
  | other (msg : String)
deriving DecidableEq

/-- Rendered message of a drive-level exception. -/
def DriveExc.msg : DriveExc → String
  | .httpError _ m => m
  | .apiError m => m
  | .contentExtractionError m => m
  | .other m => m

/-- The media request actually executed by `download_file_content`: either an
`files().export_media` with a target MIME type, or a raw `files().get_media`
download. -/
inductive DriveCall where
  | exportMedia (fileId : String) (mimeType : String)
  | getMedia (fileId : String)
deriving DecidableEq

/-- The collaborator boundary of `download_file_content`: metadata resolution
(`get_file_metadata`, returning the optional `mimeType` field or raising), and
execution of a media request by the chunked downloader. -/
structure DriveEnv where
  get_file_metadata : String → Except DriveExc (Option String)
  execute_media_request : DriveCall → Except DriveExc (List UInt8)

/-- The `GOOGLE_DOCS_MIME_TYPES` export table of `drive_api.py`. -/
def GOOGLE_DOCS_MIME_TYPES : String → Option String
  | "application/vnd.google-apps.document" => some "text/plain"
  | "application/vnd.google-apps.spreadsheet" => some "text/csv"
  | "application/vnd.google-apps.presentation" => some "text/plain"
  | _ => none

/-- The `except` clauses wrapping the body of `download_file_content`: an
`HttpError` becomes an `APIError` keyed on its status, a
`ContentExtractionError` is re-raised, and every other exception (including an
`APIError` escaping `get_file_metadata`) is wrapped into a
`ContentExtractionError`. -/
def download_outer_wrap (file_id : String) : DriveExc → DriveExc
  | .httpError 404 _ => .apiError ("File not found (404) for download/export: " ++ file_id)
  | .httpError 403 _ =>
    .apiError ("Permission denied (403) downloading/exporting file " ++ file_id ++ ".")
  | .httpError s _ =>
    .apiError ("Failed to download/export file " ++ file_id ++ ": " ++ toString s)
  | .contentExtractionError m => .contentExtractionError m
  | e => .contentExtractionError
      ("Unexpected error downloading/exporting file " ++ file_id ++ ": " ++ e.msg)

/-- Embedding of `DriveService.download_file_content`, additionally reporting
the list of media requests issued (empty or a single request), which makes
"exported, never downloaded raw" and its converse provable statements. -/
def download_file_content (env : DriveEnv) (file_id : String) :
    Except DriveExc (Option String × List UInt8) × List DriveCall :=
  match env.get_file_metadata file_id with
  | .error e => (.error (download_outer_wrap file_id e), [])
  | .ok original_mime_type =>
    let decision : Except DriveExc (Option String × DriveCall) :=
      match original_mime_type with
      | some m =>
        match GOOGLE_DOCS_MIME_TYPES m with
        | some target => .ok (some target, DriveCall.exportMedia file_id target)
        | none =>
          if strStarts m "application/vnd.google-apps" then
            .error (DriveExc.contentExtractionError
              ("Unsupported Google Workspace type for direct download: " ++ m))
          else .ok (some m, DriveCall.getMedia file_id)
      | none => .ok (none, DriveCall.getMedia file_id)
    match decision with
    | .error e => (.error (download_outer_wrap file_id e), [])
    | .ok (target_mime_type, call) =>
      match env.execute_media_request call with
      | .error e => (.error (download_outer_wrap file_id e), [call])
      | .ok content => (.ok (target_mime_type, content), [call])

/-! ## grader.py: attachment handlers -/

/-- Embedding of the `handle_drive_file` closure of
`_extract_submission_content`. -/
def handle_drive_file (env : GraderEnv) (att : DriveFileAtt) : Option String × Option String :=
  let file_id := att.id
  let file_title := att.title.getD "Untitled Drive File"
  if optTruthy file_id = false then (none, some "Drive file missing file ID.")
  else
    match env.download_file_content (file_id.getD "") with
    | .error e =>
      (none, some ((if e.isCaught then "Error accessing Drive file '"
        else "Unexpected error with Drive file '") ++ file_title ++ "': " ++ e.msg))
    | .ok (mime_type, file_bytes) =>
      if bytesTruthy file_bytes = false then
        (none, some ("File '" ++ file_title ++ "' is empty."))
      else if optTruthy mime_type && strStarts (mime_type.getD "") "text/" then
        match utf8Decode (file_bytes.getD []) with
        | some cs => (some (String.mk cs), none)
        | none =>
          match latin1Decode (file_bytes.getD []) with
          | some cs => (some (String.mk cs), none)
          | none => (none, some ("Could not decode file '" ++ file_title ++ "' as text."))
      else
        (none, some ("File '" ++ file_title ++ "' is not a text-based document (MIME: "
          ++ pyShow mime_type ++ ")."))

/-- The `re.search(r'/d/([^/]+)', url)` scan: first position where the literal
`/d/` is followed by at least one character other than `/`; the captured group
is the maximal such run. -/
def re_search_form_id : List Char → Option (List Char)
  | [] => none
  | c :: rest =>
    if listIsPre ['/', 'd', '/'] (c :: rest) then
      let grp := ((c :: rest).drop 3).takeWhile (fun ch => ch != '/')
      if grp.isEmpty then re_search_form_id rest else some grp
    else re_search_form_id rest

/-- Form-id extraction from a form URL in `handle_form`. -/
def parse_form_id (url : String) : Option String :=
  (re_search_form_id url.toList).map String.mk

/-- The target response id parsed from a response URL:
`response_url.split('id=')[1].split('&')[0]`. -/
def response_target_id (response_url : String) : String :=
  ((pySplit ((pySplit response_url "id=").getD 1 "") "&").headD "")

/-- The email-match step of `handle_form`: consult the email-to-response dict
only when the student email is truthy. -/
def email_match (all_responses : List FormResponse) (student_email : Option String) :
    Option FormResponse :=
  if optTruthy student_email then
    pyDictGet (match_responses_to_emails all_responses [student_email.getD ""])
      (student_email.getD "")
  else none

/-- The response-id match step of `handle_form`: the first response whose
`responseId` equals the id parsed from the response URL. -/
def id_match (all_responses : List FormResponse) (response_url : String) : Option FormResponse :=
  all_responses.find? (fun r => r.responseId == some (response_target_id response_url))

/-- The matching policy of `handle_form` (grader.py lines 141-157): email match
first; the response-URL id match only when that produced nothing; when neither
produced a (truthy) response, every fetched response is a candidate. -/
def form_matching (all_responses : List FormResponse) (student_email response_url : Option String) :
    List FormResponse :=
  let m1 := email_match all_responses student_email
  let m2 :=
    if pyOptRespFalsy m1 && optTruthy response_url
        && strContains (response_url.getD "") "/viewresponse?id=" then
      id_match all_responses (response_url.getD "")
    else m1
  match m2 with
  | some r => if pyRespFalsy r then all_responses else [r]
  | none => all_responses

/-- Embedding of the `handle_form` closure. Besides the (content, error) pair
it returns the value assigned to `submission['form_response_data']` when
execution reaches that assignment (`none` when the handler fails earlier). -/
def handle_form (env : GraderEnv) (student_email : Option String) (att : FormAtt) :
    (Option String × Option String) × Option (List StudentFormData) :=
  let form_url := att.formUrl
  let response_url := att.responseUrl
  let form_title := att.title.getD "Untitled Form"
  if optTruthy form_url = false then
    ((none, some "Form attachment has no URL."), none)
  else
    match parse_form_id (form_url.getD "") with
    | none => ((none, some ("Could not parse Form ID from URL: " ++ form_url.getD "")), none)
    | some form_id =>
      match env.parse_form_and_responses form_id with
      | .error e =>
        ((none, some ((if e.isCaught then "Error accessing form '"
          else "Unexpected error with form '") ++ form_title ++ "': " ++ e.msg)), none)
      | .ok (form_structure, all_responses) =>
        let matching_responses := form_matching all_responses student_email response_url
        if matching_responses.isEmpty then
          ((none, some ("No responses found or matched for form '" ++ form_title ++ "'.")), none)
        else
          let extracted_form_data :=
            matching_responses.map (extract_student_form_data form_structure)
          let formatted_responses := format_responses_for_llm form_structure matching_responses
          match formatted_responses with
          | [] =>
            ((none, some ("Failed to format responses for form '" ++ form_title ++ "'.")),
              some extracted_form_data)
          | fr :: rest =>
            let content :=
              if rest.isEmpty = false then
                pyJoin "\n\n---\n\n" ((fr :: rest).map (fun x => x.formatted_text))
              else fr.formatted_text
            ((some content, none), some extracted_form_data)

/-- Doc-id extraction in `handle_link`:
`url.split('/d/')[1].split('/')[0]`, with `none` for the IndexError case. -/
def link_doc_id (url : String) : Option String :=
  match pySplit url "/d/" with
  | _ :: second :: _ => some ((pySplit second "/").headD "")
  | _ => none

/-- Embedding of the `handle_link` closure, additionally reporting the list of
document ids fetched through the docs service (its only outward call). -/
def handle_link (env : GraderEnv) (att : LinkAtt) :
    (Option String × Option String) × List String :=
  let url := att.url
  let title := att.title.getD "Untitled Link"
  if optTruthy url && (strContains (url.getD "") "docs.google.com/document"
      || strContains (url.getD "") "docs.google.com") then
    match link_doc_id (url.getD "") with
    | none => ((none, some ("Could not extract doc ID from link: " ++ url.getD "")), [])
    | some doc_id =>
      if doc_id.isEmpty = false then
        match env.get_document_text doc_id with
        | .ok doc_content =>
          if doc_content.isEmpty = false then ((some doc_content, none), [doc_id])
          else
            ((none, some ("Google Doc link '" ++ title ++ "' is empty or could not be read.")),
              [doc_id])
        | .error e =>
          ((none, some ((if e.isCaught then "Error accessing Google Doc link '"
            else "Unexpected error processing Google Doc link '") ++ title ++ "': " ++ e.msg)),
            [doc_id])
      else ((none, some ("Link attachment '" ++ title ++ "' not supported or not a Google Doc.")), [])
  else ((none, some ("Link attachment '" ++ title ++ "' not supported or not a Google Doc.")), [])

/-! ## grader.py: orchestrator -/

/-- Embedding of `Grader._describe_attachment`. -/
def describe_attachment (att : Attachment) : String :=
  match att.driveFile with
  | some f => "DriveFile[" ++ f.title.getD "untitled" ++ ":" ++ f.id.getD "no-id" ++ "]"
  | none =>
    match att.form with
    | some f => "Form[" ++ f.title.getD "untitled" ++ "]"
    | none =>
      match att.link with
      | some f => "Link[" ++ f.title.getD "untitled" ++ "]"
      | none => "UnknownAttachmentType"

/-- The handler-registry dispatch of the orchestrator loop: predicates are
tried in registry order (driveFile, form, link), first match wins; `none` means
no handler found. The second component is the pending `form_response_data`
write of the form handler. -/
def dispatch_attachment (env : GraderEnv) (student_email : Option String) (att : Attachment) :
    Option ((Option String × Option String) × Option (List StudentFormData)) :=
  match att.driveFile with
  | some f => some (handle_drive_file env f, none)
  | none =>
    match att.form with
    | some fa => some (handle_form env student_email fa)
    | none =>
      match att.link with
      | some la => some ((handle_link env la).1, none)
      | none => none

/-- Attachment gathering of `_extract_submission_content` (lines 71-84):
student-level attachments, extended by assignment-level materials only when the
student list is empty, consulting `courseWork`, then `assignment_attachments`,
then the grader's `current_assignment`. -/
def gather_attachments (current_assignment : Option (List Attachment)) (sub : Submission) :
    List Attachment :=
  let attachments := sub.attachments
  let assignment_attachments : List Attachment :=
    if attachments.isEmpty then
      match sub.courseWork with
      | some materials => materials
      | none =>
        match sub.assignment_attachments with
        | some l => l
        | none =>
          match current_assignment with
          | some materials => materials
          | none => []
    else []
  attachments ++ assignment_attachments

/-- Application of a pending `submission['form_response_data'] = ...`
assignment to the submission state. -/
def apply_write (s : Submission) : Option (List StudentFormData) → Submission
  | none => s
  | some d => { s with form_response_data := some d }

/-- One iteration of the orchestrator's attachment loop, threading the
accumulated fragments, the accumulated error details, and the submission state
mutated by the form handler. -/
def extract_step (env : GraderEnv) (acc : List String × List String × Submission)
    (att : Attachment) : List String × List String × Submission :=
  let results := acc.1
  let errors := acc.2.1
  let s := acc.2.2
  match dispatch_attachment env s.student_email att with
  | none =>
    (results, errors ++ ["Attachment " ++ describe_attachment att ++ ": No handler found."], s)
  | some ((content, error), write) =>
    let s' := apply_write s write
    if optTruthy content then (results ++ [content.getD ""], errors, s')
    else
      (results, errors ++ ["Attachment " ++ describe_attachment att ++ ": " ++ pyShow error], s')

/-- Embedding of `Grader._extract_submission_content`: returns the
(content, error) pair together with the final state of the submission object. -/
def extract_submission_content (env : GraderEnv) (current_assignment : Option (List Attachment))
    (sub : Submission) : (Option String × Option String) × Submission :=
  let attachments := gather_attachments current_assignment sub
  if attachments.isEmpty then ((none, some "No attachments found."), sub)
  else
    let folded := attachments.foldl (extract_step env) ([], [], sub)
    if folded.1.isEmpty = false then
      ((some (pyJoin "\n\n---\n\n" folded.1), none), folded.2.2)
    else
      ((none, some ("No supported attachment type found or content extracted. Details:\n"
        ++ pyJoin "\n" folded.2.1)), folded.2.2)

/-! ## Pure per-attachment summaries of the orchestrator loop -/

/-- Whether the loop treats the attachment as a success: some handler matched
and its content is truthy. -/
def att_succeeds (env : GraderEnv) (email : Option String) (att : Attachment) : Bool :=
  match dispatch_attachment env email att with
  | some r => optTruthy r.1.1
  | none => false

/-- The fragment the loop appends to `extraction_results` for this attachment,
when it succeeds. -/
def att_success (env : GraderEnv) (email : Option String) (att : Attachment) : Option String :=
  match dispatch_attachment env email att with
  | some r => if optTruthy r.1.1 then some (r.1.1.getD "") else none
  | none => none

/-- The error detail recorded for an attachment that does not succeed. -/
def att_error_line (env : GraderEnv) (email : Option String) (att : Attachment) : String :=
  match dispatch_attachment env email att with
  | some r => "Attachment " ++ describe_attachment att ++ ": " ++ pyShow r.1.2
  | none => "Attachment " ++ describe_attachment att ++ ": No handler found."

/-- The entry the loop appends to `error_details` for this attachment, if any. -/
def att_line (env : GraderEnv) (email : Option String) (att : Attachment) : Option String :=
  if att_succeeds env email att then none else some (att_error_line env email att)

/-- The `form_response_data` write performed while handling this attachment. -/
def att_write (env : GraderEnv) (email : Option String) (att : Attachment) :
    Option (List StudentFormData) :=
  match dispatch_attachment env email att with
  | some r => r.2
  | none => none

/-- The last `form_response_data` write performed over a list of attachments. -/
def loop_write (env : GraderEnv) (email : Option String) :
    List Attachment → Option (List StudentFormData)
  | [] => none
  | att :: rest =>
    match loop_write env email rest with
    | some d => some d
    | none => att_write env email att

/-! ## String lemmas -/

theorem str_ne_empty_iff (s : String) : s ≠ "" ↔ s.data ≠ [] := by
  constructor
  · intro h hd
    exact h (String.ext hd)
  · intro h hs
    exact h (by rw [hs])

theorem str_append_ne_empty_left (a b : String) (h : a ≠ "") : a ++ b ≠ "" := by
  rw [str_ne_empty_iff] at h ⊢
  rw [String.data_append]
  intro hc
  exact h (List.append_eq_nil.mp hc).1

theorem str_mk_ne_empty (l : List Char) (h : l ≠ []) : String.mk l ≠ "" := by
  rw [str_ne_empty_iff]
  exact h

theorem mem_data_append_left (a b : String) (c : Char) (h : c ∈ a.data) : c ∈ (a ++ b).data := by
  rw [String.data_append]
  exact List.mem_append_left _ h

theorem mem_data_foldl (c : Char) :
    ∀ (l : List String) (a : String), c ∈ a.data → c ∈ (l.foldl (fun acc t => acc ++ t) a).data
  | [], _, h => h
  | x :: xs, a, h => mem_data_foldl c xs (a ++ x) (mem_data_append_left a x c h)

theorem mem_dropWhile_of_not (p : Char → Bool) (c : Char) (h : p c = false) :
    ∀ l : List Char, c ∈ l → c ∈ l.dropWhile p := by
  intro l
  induction l with
  | nil => intro hc; cases hc
  | cons a as ih =>
    intro hc
    rw [List.dropWhile_cons]
    by_cases hpa : p a = true
    · simp only [hpa, if_true]
      rcases List.mem_cons.mp hc with rfl | hmem
      · rw [h] at hpa; cases hpa
      · exact ih hmem
    · simp only [Bool.not_eq_true] at hpa
      simp only [hpa, Bool.false_eq_true, if_false]
      exact hc

theorem pyStrip_ne_empty_of_mem (s : String) (c : Char) (hc : c ∈ s.data)
    (hns : isPySpace c = false) : pyStrip s ≠ "" := by
  unfold pyStrip
  apply str_mk_ne_empty
  intro hnil
  rw [List.reverse_eq_nil_iff, List.dropWhile_eq_nil_iff] at hnil
  have h1 : c ∈ s.data.dropWhile isPySpace := mem_dropWhile_of_not isPySpace c hns s.data hc
  have h2 : c ∈ (s.data.dropWhile isPySpace).reverse := List.mem_reverse.mpr h1
  have := hnil c h2
  rw [hns] at this
  cases this

theorem pyJoin_head_append (sep : String) (x : String) (xs : List String) :
    ∃ t : String, pyJoin sep (x :: xs) = x ++ t := by
  suffices h : ∀ (l : List String) (a : String),
      ∃ t : String, l.foldl (fun acc y => acc ++ sep ++ y) a = a ++ t by
    exact h xs x
  intro l
  induction l with
  | nil =>
    intro a
    refine ⟨"", ?_⟩
    simp only [List.foldl_nil]
    apply String.ext
    rw [String.data_append]
    simp
  | cons y ys ih =>
    intro a
    obtain ⟨t, ht⟩ := ih (a ++ sep ++ y)
    refine ⟨sep ++ y ++ t, ?_⟩
    rw [List.foldl_cons, ht]
    apply String.ext
    simp only [String.data_append, List.append_assoc]

theorem pyJoin_ne_empty (sep : String) (x : String) (xs : List String) (h : x ≠ "") :
    pyJoin sep (x :: xs) ≠ "" := by
  obtain ⟨t, ht⟩ := pyJoin_head_append sep x xs
  rw [ht]
  exact str_append_ne_empty_left x t h

/-! ## Decoder lemmas -/

theorem latin1DecodeByte_isSome (b : UInt8) : (latin1DecodeByte b).isSome := by
  unfold latin1DecodeByte
  have : b.toNat < 256 := b.toNat_lt
  simp [this]

theorem latin1Decode_isSome : ∀ bs : List UInt8, (latin1Decode bs).isSome := by
  intro bs
  induction bs with
  | nil => rfl
  | cons b rest ih =>
    unfold latin1Decode
    have hb := latin1DecodeByte_isSome b
    cases hcb : latin1DecodeByte b with
    | none => rw [hcb] at hb; cases hb
    | some c =>
      cases hrest : latin1Decode rest with
      | none => rw [hrest] at ih; cases ih
      | some cs => simp

theorem latin1Decode_ne_nil (b : UInt8) (bs : List UInt8) (cs : List Char)
    (h : latin1Decode (b :: bs) = some cs) : cs ≠ [] := by
  unfold latin1Decode at h
  cases hcb : latin1DecodeByte b with
  | none => rw [hcb] at h; cases h
  | some c =>
    rw [hcb] at h
    cases hrest : latin1Decode bs with
    | none => rw [hrest] at h; cases h
    | some cs' =>
      rw [hrest] at h
      simp only [Option.some.injEq] at h
      rw [← h]
      exact List.cons_ne_nil c cs'

theorem utf8Decode_ne_nil (b : UInt8) (bs : List UInt8) (cs : List Char)
    (h : utf8Decode (b :: bs) = some cs) : cs ≠ [] := by
  unfold utf8Decode at h
  rw [List.length_cons] at h
  unfold utf8DecodeAux at h
  split at h
  · rename_i c rest' _
    rw [Option.map_eq_some'] at h
    obtain ⟨cs', _, hcs⟩ := h
    rw [← hcs]
    exact List.cons_ne_nil _ _
  · cases h

/-! ## Substring lemmas -/

theorem listIsPre_trans (a : List Char) :
    ∀ (b l : List Char), listIsPre a b = true → listIsPre b l = true → listIsPre a l = true := by
  induction a with
  | nil => intro b l _ _; rfl
  | cons x as ih =>
    intro b l hab hbl
    cases b with
    | nil => cases hab
    | cons y bs =>
      cases l with
      | nil => cases hbl
      | cons z ls =>
        unfold listIsPre at hab hbl ⊢
        rw [Bool.and_eq_true] at hab hbl
        have hxy : x = y := by simpa using hab.1
        have hyz : y = z := by simpa using hbl.1
        rw [Bool.and_eq_true]
        constructor
        · simp [hxy, hyz]
        · exact ih bs ls hab.2 hbl.2

theorem listIsInf_of_pre_of_inf (a b : List Char) (hab : listIsPre a b = true) :
    ∀ u : List Char, listIsInf b u = true → listIsInf a u = true := by
  intro u
  induction u with
  | nil =>
    intro hbu
    unfold listIsInf at hbu ⊢
    cases b with
    | nil => cases a with
      | nil => rfl
      | cons _ _ => cases hab
    | cons _ _ => cases hbu
  | cons c rest ih =>
    intro hbu
    unfold listIsInf at hbu ⊢
    rw [Bool.or_eq_true] at hbu ⊢
    rcases hbu with hpre | hinf
    · exact Or.inl (listIsPre_trans a b (c :: rest) hab hpre)
    · exact Or.inr (ih hinf)

theorem strContains_of_longer (u : String) (short long : String)
    (hpre : listIsPre short.toList long.toList = true)
    (h : strContains u long = true) : strContains u short = true :=
  listIsInf_of_pre_of_inf short.toList long.toList hpre u.toList h

/-! ## Association-list dict lemmas -/

theorem pyDictInsert_mem {α : Type} (d : List (String × α)) (k : String) (v : α)
    (p : String × α) (hp : p ∈ pyDictInsert d k v) : p ∈ d ∨ p.2 = v := by
  unfold pyDictInsert at hp
  by_cases hany : d.any (fun q => q.1 == k) = true
  · rw [if_pos hany] at hp
    rw [List.mem_map] at hp
    obtain ⟨q, hq, hqp⟩ := hp
    by_cases hqk : (q.1 == k) = true
    · rw [if_pos hqk] at hqp
      right
      rw [← hqp]
    · rw [if_neg hqk] at hqp
      left
      rw [← hqp]
      exact hq
  · rw [if_neg hany] at hp
    rcases List.mem_append.mp hp with hmem | hkv
    · left; exact hmem
    · right
      rw [List.mem_singleton] at hkv
      rw [hkv]

theorem pyDictGet_mem {α : Type} (d : List (String × α)) (k : String) (v : α)
    (h : pyDictGet d k = some v) : ∃ p ∈ d, p.2 = v := by
  unfold pyDictGet at h
  cases hf : d.find? (fun q => q.1 == k) with
  | none => rw [hf] at h; cases h
  | some p =>
    rw [hf] at h
    simp only [Option.map_some', Option.some.injEq] at h
    exact ⟨p, List.mem_of_find?_eq_some hf, h⟩

/-! ## filterMap helpers -/

theorem filterMap_eq_map_of {α β : Type} (f : α → Option β) (g : α → β) :
    ∀ l : List α, (∀ a ∈ l, f a = some (g a)) → l.filterMap f = l.map g := by
  intro l
  induction l with
  | nil => intro _; rfl
  | cons x xs ih =>
    intro h
    rw [List.filterMap_cons, h x (List.mem_cons_self x xs), List.map_cons]
    rw [ih (fun a ha => h a (List.mem_cons_of_mem x ha))]

/-! ## Orchestrator loop characterization -/

theorem apply_write_student_email (s : Submission) (w : Option (List StudentFormData)) :
    (apply_write s w).student_email = s.student_email := by
  cases w <;> rfl

theorem apply_write_comp (s : Submission) (w1 w2 : Option (List StudentFormData)) :
    apply_write (apply_write s w1) w2 =
      apply_write s (match w2 with | some d => some d | none => w1) := by
  cases w2 <;> cases w1 <;> rfl

theorem extract_step_eq (env : GraderEnv) (res errs : List String) (s : Submission)
    (att : Attachment) :
    extract_step env (res, errs, s) att =
      (res ++ (att_success env s.student_email att).toList,
       errs ++ (att_line env s.student_email att).toList,
       apply_write s (att_write env s.student_email att)) := by
  unfold extract_step att_success att_line att_succeeds att_error_line att_write
  rcases hdisp : dispatch_attachment env s.student_email att with _ | ⟨⟨content, error⟩, write⟩
  · simp only [hdisp]
    simp [apply_write]
  · simp only [hdisp]
    by_cases hc : optTruthy content = true
    · simp [hc]
    · rw [Bool.not_eq_true] at hc
      simp [hc]

theorem extract_fold_eq (env : GraderEnv) (atts : List Attachment) :
    ∀ (res errs : List String) (s : Submission),
      atts.foldl (extract_step env) (res, errs, s) =
        (res ++ atts.filterMap (att_success env s.student_email),
         errs ++ atts.filterMap (att_line env s.student_email),
         apply_write s (loop_write env s.student_email atts)) := by
  induction atts with
  | nil =>
    intro res errs s
    simp [loop_write, apply_write]
  | cons att rest ih =>
    intro res errs s
    rw [List.foldl_cons, extract_step_eq, ih]
    rw [apply_write_student_email]
    refine congrArg₂ Prod.mk ?_ (congrArg₂ Prod.mk ?_ ?_)
    · rw [List.filterMap_cons]
      cases att_success env s.student_email att <;> simp
    · rw [List.filterMap_cons]
      cases att_line env s.student_email att <;> simp
    · rw [apply_write_comp]
      have : loop_write env s.student_email (att :: rest) =
          (match loop_write env s.student_email rest with
           | some d => some d
           | none => att_write env s.student_email att) := rfl
      rw [this]

theorem extract_submission_content_eq (env : GraderEnv) (ca : Option (List Attachment))
    (sub : Submission) :
    extract_submission_content env ca sub =
      (if (gather_attachments ca sub).isEmpty then ((none, some "No attachments found."), sub)
       else if ((gather_attachments ca sub).filterMap
           (att_success env sub.student_email)).isEmpty = false then
         ((some (pyJoin "\n\n---\n\n" ((gather_attachments ca sub).filterMap
             (att_success env sub.student_email))), none),
          apply_write sub (loop_write env sub.student_email (gather_attachments ca sub)))
       else
         ((none, some ("No supported attachment type found or content extracted. Details:\n"
             ++ pyJoin "\n" ((gather_attachments ca sub).filterMap
               (att_line env sub.student_email)))),
          apply_write sub (loop_write env sub.student_email (gather_attachments ca sub)))) := by
  unfold extract_submission_content
  dsimp only
  rw [extract_fold_eq env (gather_attachments ca sub) [] [] sub]
  simp only [List.nil_append]

/-! ## Concrete evaluation checks of the embedding -/

example : parse_form_id "https://docs.google.com/forms/d/FID42/edit" = some "FID42" := by decide

example : parse_form_id "https://example.com/nope" = none := by decide

example : response_target_id "https://docs.google.com/forms/d/X/viewresponse?id=ABC&usp=1" = "ABC" := by
  decide

example : link_doc_id "https://docs.google.com/document/d/DOC9/edit" = some "DOC9" := by decide

example : link_doc_id "https://docs.google.com/forms/xyz" = none := by decide

example : pyStrip "  hi there\n\n" = "hi there" := by decide

example : pyJoin ", " ["a", "b", "c"] = "a, b, c" := by decide

example : utf8Decode [104, 105] = some ['h', 'i'] := by decide

example : utf8Decode [0xFF] = none := by decide

example : utf8Decode [0xC3, 0xA9] = some ['é'] := by decide

def sample_form_item : FormItem :=
  { itemId := "i1"
    title := some "Q1"
    questionItem := some
      { questionId := some "q1"
        questionType := some "TEXT"
        grading := none
        choiceQuestion := none } }

def sample_form_structure : FormStructure :=
  { info := some { title := some "T1" }
    items := some [sample_form_item] }

def sample_form_response : FormResponse :=
  { respondentEmail := some "a@x.com"
    responseId := some "R1"
    answers := some [("q1", { textAnswers := some { answers := some [{ value := some "42" }] } })]
    totalScore := none }

example :
    format_responses_for_llm sample_form_structure [sample_form_response] =
    [{ respondent_email := "a@x.com"
       response_id := "R1"
       formatted_text := "Form Title: T1\nRespondent: a@x.com\nResponse ID: R1\n---\n\nQ: Q1\nA: 42" }] := by
  decide

/-! ## The universal (content, error) contract -/

/-- The extraction-result contract: exactly one of content and error is
populated, content is non-empty text, and the error is a non-empty
description. -/
def ResultOk (r : Option String × Option String) : Prop :=
  (∃ c, r.1 = some c ∧ c ≠ "" ∧ r.2 = none) ∨ (r.1 = none ∧ ∃ e, r.2 = some e ∧ e ≠ "")

theorem resultOk_success (c : String) (h : c ≠ "") : ResultOk (some c, none) :=
  Or.inl ⟨c, rfl, h, rfl⟩

theorem resultOk_failure (e : String) (h : e ≠ "") : ResultOk (none, some e) :=
  Or.inr ⟨rfl, e, rfl, h⟩

theorem ite_ne_empty (c : Prop) [Decidable c] (p q : String) (hp : p ≠ "") (hq : q ≠ "") :
    (if c then p else q) ≠ "" := by
  by_cases h : c
  · rw [if_pos h]; exact hp
  · rw [if_neg h]; exact hq

theorem bytesTruthy_getD (o : Option (List UInt8)) (h : bytesTruthy o = true) : o.getD [] ≠ [] := by
  cases o with
  | none => cases h
  | some l =>
    simp only [Option.getD_some]
    simpa [bytesTruthy, List.isEmpty_iff] using h

theorem utf8Decode_ne_nil' (bs : List UInt8) (cs : List Char) (hbs : bs ≠ [])
    (h : utf8Decode bs = some cs) : cs ≠ [] := by
  cases bs with
  | nil => exact absurd rfl hbs
  | cons b tl => exact utf8Decode_ne_nil b tl cs h

theorem latin1Decode_ne_nil' (bs : List UInt8) (cs : List Char) (hbs : bs ≠ [])
    (h : latin1Decode bs = some cs) : cs ≠ [] := by
  cases bs with
  | nil => exact absurd rfl hbs
  | cons b tl => exact latin1Decode_ne_nil b tl cs h

theorem resultOk_handle_drive_file (env : GraderEnv) (att : DriveFileAtt) :
    ResultOk (handle_drive_file env att) := by
  unfold handle_drive_file
  dsimp only
  split
  · exact resultOk_failure _ (by decide)
  · split
    · refine resultOk_failure _ ?_
      apply str_append_ne_empty_left
      apply str_append_ne_empty_left
      apply str_append_ne_empty_left
      exact ite_ne_empty _ _ _ (by decide) (by decide)
    · split
      · refine resultOk_failure _ ?_
        apply str_append_ne_empty_left
        apply str_append_ne_empty_left
        decide
      · rename_i mime_type file_bytes hbt
        rw [Bool.not_eq_false] at hbt
        split
        · split
          · rename_i cs hdec
            refine resultOk_success _ ?_
            exact str_mk_ne_empty cs (utf8Decode_ne_nil' _ cs (bytesTruthy_getD _ hbt) hdec)
          · split
            · rename_i cs hdec
              refine resultOk_success _ ?_
              exact str_mk_ne_empty cs (latin1Decode_ne_nil' _ cs (bytesTruthy_getD _ hbt) hdec)
            · refine resultOk_failure _ ?_
              apply str_append_ne_empty_left
              apply str_append_ne_empty_left
              decide
        · refine resultOk_failure _ ?_
          apply str_append_ne_empty_left
          apply str_append_ne_empty_left
          apply str_append_ne_empty_left
          apply str_append_ne_empty_left
          decide

theorem formatted_text_ne_empty (fs : FormStructure) (rs : List FormResponse)
    (fr : FormattedResponse) (h : fr ∈ format_responses_for_llm fs rs) :
    fr.formatted_text ≠ "" := by
  unfold format_responses_for_llm at h
  rw [List.mem_map] at h
  obtain ⟨resp, _, rfl⟩ := h
  dsimp only
  apply pyStrip_ne_empty_of_mem _ 'F'
  · apply mem_data_foldl
    apply mem_data_append_left
    apply mem_data_append_left
    apply mem_data_append_left
    apply mem_data_append_left
    apply mem_data_append_left
    apply mem_data_append_left
    apply mem_data_append_left
    decide
  · decide

theorem resultOk_handle_form (env : GraderEnv) (email : Option String) (att : FormAtt) :
    ResultOk (handle_form env email att).1 := by
  unfold handle_form
  dsimp only
  split
  · exact resultOk_failure _ (by decide)
  · split
    · refine resultOk_failure _ ?_
      apply str_append_ne_empty_left
      decide
    · split
      · refine resultOk_failure _ ?_
        apply str_append_ne_empty_left
        apply str_append_ne_empty_left
        apply str_append_ne_empty_left
        exact ite_ne_empty _ _ _ (by decide) (by decide)
      · rename_i hurl fid hfid form_structure all_responses henv
        split
        · refine resultOk_failure _ ?_
          apply str_append_ne_empty_left
          apply str_append_ne_empty_left
          decide
        · split
          · refine resultOk_failure _ ?_
            apply str_append_ne_empty_left
            apply str_append_ne_empty_left
            decide
          · rename_i hne fr rest hfmt
            have hmem : fr ∈ format_responses_for_llm form_structure
                (form_matching all_responses email att.responseUrl) := by
              rw [hfmt]
              exact List.mem_cons_self fr rest
            have hfr := formatted_text_ne_empty _ _ fr hmem
            refine resultOk_success _ ?_
            split
            · rw [List.map_cons]
              exact pyJoin_ne_empty _ _ _ hfr
            · exact hfr

theorem resultOk_handle_link (env : GraderEnv) (att : LinkAtt) :
    ResultOk (handle_link env att).1 := by
  unfold handle_link
  dsimp only
  split
  · split
    · refine resultOk_failure _ ?_
      apply str_append_ne_empty_left
      decide
    · split
      · split
        · rename_i doc_content hok
          split
          · rename_i hne
            refine resultOk_success _ ?_
            rw [str_ne_empty_iff]
            intro hd
            rw [show doc_content = "" from String.ext hd] at hne
            cases hne
          · refine resultOk_failure _ ?_
            apply str_append_ne_empty_left
            apply str_append_ne_empty_left
            decide
        · refine resultOk_failure _ ?_
          apply str_append_ne_empty_left
          apply str_append_ne_empty_left
          apply str_append_ne_empty_left
          exact ite_ne_empty _ _ _ (by decide) (by decide)
      · refine resultOk_failure _ ?_
        apply str_append_ne_empty_left
        apply str_append_ne_empty_left
        decide
  · refine resultOk_failure _ ?_
    apply str_append_ne_empty_left
    apply str_append_ne_empty_left
    decide

theorem optTruthy_getD_ne_empty (o : Option String) (h : optTruthy o = true) : o.getD "" ≠ "" := by
  cases o with
  | none => cases h
  | some s =>
    simp only [Option.getD_some]
    intro hs
    rw [hs] at h
    exact absurd h (by decide)

theorem att_success_ne_empty (env : GraderEnv) (email : Option String) (att : Attachment)
    (c : String) (h : att_success env email att = some c) : c ≠ "" := by
  unfold att_success at h
  rcases hd : dispatch_attachment env email att with _ | r
  · simp only [hd] at h
    cases h
  · simp only [hd] at h
    by_cases ht : optTruthy r.1.1 = true
    · rw [if_pos ht] at h
      injection h with h
      rw [← h]
      exact optTruthy_getD_ne_empty _ ht
    · rw [if_neg ht] at h
      cases h

theorem resultOk_extract (env : GraderEnv) (ca : Option (List Attachment)) (sub : Submission) :
    ResultOk (extract_submission_content env ca sub).1 := by
  rw [extract_submission_content_eq]
  split
  · exact resultOk_failure _ (by decide)
  · split
    · rename_i hres
      cases hlist : (gather_attachments ca sub).filterMap (att_success env sub.student_email) with
      | nil => rw [hlist] at hres; cases hres
      | cons c tl =>
        refine resultOk_success _ ?_
        have hc : c ∈ (gather_attachments ca sub).filterMap (att_success env sub.student_email) := by
          rw [hlist]
          exact List.mem_cons_self c tl
        obtain ⟨att, _, hsucc⟩ := List.mem_filterMap.mp hc
        exact pyJoin_ne_empty _ _ _ (att_success_ne_empty env sub.student_email att c hsucc)
    · refine resultOk_failure _ ?_
      apply str_append_ne_empty_left
      decide

/-- Claim C2: every extractor handler (Drive, Form, Link) and the orchestrator
return exactly one populated field of the (content, error) pair: non-null
content is non-empty text with a null error, and null content comes with a
non-null, non-empty error description — for every collaborator behaviour,
submission and attachment. -/
theorem claim_C2 (env : GraderEnv) :
    (∀ att : DriveFileAtt, ResultOk (handle_drive_file env att)) ∧
    (∀ (email : Option String) (att : FormAtt), ResultOk (handle_form env email att).1) ∧
    (∀ att : LinkAtt, ResultOk (handle_link env att).1) ∧
    (∀ (ca : Option (List Attachment)) (sub : Submission),
      ResultOk (extract_submission_content env ca sub).1) :=
  ⟨fun att => resultOk_handle_drive_file env att,
   fun email att => resultOk_handle_form env email att,
   fun att => resultOk_handle_link env att,
   fun ca sub => resultOk_extract env ca sub⟩

/-! ## Claims C1, C3, C4: the orchestrator aggregation policy -/

theorem att_succeeds_success (env : GraderEnv) (email : Option String) (att : Attachment)
    (h : att_succeeds env email att = true) : ∃ c, att_success env email att = some c := by
  unfold att_succeeds at h
  unfold att_success
  rcases hd : dispatch_attachment env email att with _ | r
  · simp only [hd] at h
    cases h
  · simp only [hd] at h ⊢
    rw [if_pos h]
    exact ⟨_, rfl⟩

theorem att_success_eq_none (env : GraderEnv) (email : Option String) (att : Attachment)
    (h : att_succeeds env email att = false) : att_success env email att = none := by
  unfold att_succeeds at h
  unfold att_success
  rcases hd : dispatch_attachment env email att with _ | r
  · simp only [hd]
  · simp only [hd] at h ⊢
    rw [if_neg]
    simp [h]

theorem att_line_eq_some (env : GraderEnv) (email : Option String) (att : Attachment)
    (h : att_succeeds env email att = false) :
    att_line env email att = some (att_error_line env email att) := by
  unfold att_line
  rw [h]
  rfl

/-- Claim C1: whenever the merged attachment list contains at least one
attachment whose extractor returns non-empty text, the orchestrator returns
success: the content is the successful fragments joined with the separator and
the error is null, no matter how many sibling attachments failed. -/
theorem claim_C1 (env : GraderEnv) (ca : Option (List Attachment)) (sub : Submission)
    (h : ∃ att ∈ gather_attachments ca sub, att_succeeds env sub.student_email att = true) :
    (extract_submission_content env ca sub).1 =
      (some (pyJoin "\n\n---\n\n"
        ((gather_attachments ca sub).filterMap (att_success env sub.student_email))), none) := by
  obtain ⟨att, hmem, hsucc⟩ := h
  rw [extract_submission_content_eq]
  have hemp : (gather_attachments ca sub).isEmpty = false := by
    cases hga : gather_attachments ca sub with
    | nil => rw [hga] at hmem; cases hmem
    | cons a l => rfl
  simp only [hemp, Bool.false_eq_true, if_false]
  obtain ⟨c, hc⟩ := att_succeeds_success env sub.student_email att hsucc
  have hcmem : c ∈ (gather_attachments ca sub).filterMap (att_success env sub.student_email) :=
    List.mem_filterMap.mpr ⟨att, hmem, hc⟩
  have hres : ((gather_attachments ca sub).filterMap
      (att_success env sub.student_email)).isEmpty = false := by
    cases hl : (gather_attachments ca sub).filterMap (att_success env sub.student_email) with
    | nil => rw [hl] at hcmem; cases hcmem
    | cons a l => rfl
  rw [if_pos hres]

/-- Claim C3: when every attachment of a non-empty merged list fails, the
orchestrator returns null content and one aggregate error that lists one
attributable sub-message per attachment, tagged with the attachment
descriptor, in original attachment order. -/
theorem claim_C3 (env : GraderEnv) (ca : Option (List Attachment)) (sub : Submission)
    (hne : gather_attachments ca sub ≠ [])
    (hfail : ∀ att ∈ gather_attachments ca sub,
      att_succeeds env sub.student_email att = false) :
    (extract_submission_content env ca sub).1 =
      (none, some ("No supported attachment type found or content extracted. Details:\n"
        ++ pyJoin "\n"
          ((gather_attachments ca sub).map (att_error_line env sub.student_email)))) := by
  rw [extract_submission_content_eq]
  have hemp : (gather_attachments ca sub).isEmpty = false := by
    cases hga : gather_attachments ca sub with
    | nil => exact absurd hga hne
    | cons a l => rfl
  simp only [hemp, Bool.false_eq_true, if_false]
  have hresnil : (gather_attachments ca sub).filterMap (att_success env sub.student_email) = [] := by
    rw [List.filterMap_eq_nil_iff]
    intro att hmem
    exact att_success_eq_none env sub.student_email att (hfail att hmem)
  have herr : (gather_attachments ca sub).filterMap (att_line env sub.student_email) =
      (gather_attachments ca sub).map (att_error_line env sub.student_email) :=
    filterMap_eq_map_of _ _ _
      (fun a ha => att_line_eq_some env sub.student_email a (hfail a ha))
  rw [hresnil, herr]
  rfl

/-- Claim C4: a submission whose merged attachment list is empty yields
(null, "No attachments found.") and the submission is returned unchanged; the
embedding is a total function, so no exception can escape. -/
theorem claim_C4 (env : GraderEnv) (ca : Option (List Attachment)) (sub : Submission)
    (h : gather_attachments ca sub = []) :
    extract_submission_content env ca sub = ((none, some "No attachments found."), sub) := by
  rw [extract_submission_content_eq, h]
  rfl

/-- Collaborator environment whose every call fails with an APIError. -/
def envFail : GraderEnv :=
  { download_file_content := fun _ => .error (.apiError "service offline")
    parse_form_and_responses := fun _ => .error (.apiError "service offline")
    get_document_text := fun _ => .error (.apiError "service offline") }

/-- Environment serving one plain-text Drive file with content "hi". -/
def envC1 : GraderEnv :=
  { download_file_content := fun _ => .ok (some "text/plain", some [104, 105])
    parse_form_and_responses := fun _ => .error (.apiError "service offline")
    get_document_text := fun _ => .error (.apiError "service offline") }

/-- A submission with one readable Drive attachment and one unsupported link
attachment. -/
def subC1 : Submission :=
  { id := some "s1"
    userId := some "u1"
    attachments :=
      [{ driveFile := some { id := some "f1", title := some "hw.txt" }
         form := none
         link := none },
       { driveFile := none
         form := none
         link := some { url := some "https://example.com/x", title := some "ext" } }]
    courseWork := none
    assignment_attachments := none
    student_email := none
    form_response_data := none }

theorem claim_C1_witness :
    (∃ att ∈ gather_attachments none subC1, att_succeeds envC1 subC1.student_email att = true) ∧
    (extract_submission_content envC1 none subC1).1 =
      (some (pyJoin "\n\n---\n\n"
        ((gather_attachments none subC1).filterMap (att_success envC1 subC1.student_email))),
       none) :=
  ⟨by decide, claim_C1 envC1 none subC1 (by decide)⟩

example : (extract_submission_content envC1 none subC1).1 = (some "hi", none) := by decide

/-- A submission with one unsupported link attachment and one attachment of
unknown type. -/
def subC3 : Submission :=
  { id := some "s3"
    userId := some "u3"
    attachments :=
      [{ driveFile := none
         form := none
         link := some { url := some "https://example.com/x", title := some "ext" } },
       { driveFile := none
         form := none
         link := none }]
    courseWork := none
    assignment_attachments := none
    student_email := none
    form_response_data := none }

theorem claim_C3_witness :
    (gather_attachments none subC3 ≠ [] ∧
      ∀ att ∈ gather_attachments none subC3, att_succeeds envFail subC3.student_email att = false) ∧
    (extract_submission_content envFail none subC3).1 =
      (none, some ("No supported attachment type found or content extracted. Details:\n"
        ++ pyJoin "\n"
          ((gather_attachments none subC3).map (att_error_line envFail subC3.student_email)))) :=
  ⟨⟨by decide, by decide⟩, claim_C3 envFail none subC3 (by decide) (by decide)⟩

set_option maxRecDepth 4096 in
example : (extract_submission_content envFail none subC3).1 =
    (none, some ("No supported attachment type found or content extracted. Details:\n"
      ++ "Attachment Link[ext]: Link attachment 'ext' not supported or not a Google Doc.\n"
      ++ "Attachment UnknownAttachmentType: No handler found.")) := by decide

/-- A submission with no attachments at all. -/
def subC4 : Submission :=
  { id := some "s4"
    userId := some "u4"
    attachments := []
    courseWork := none
    assignment_attachments := none
    student_email := none
    form_response_data := none }

theorem claim_C4_witness :
    gather_attachments none subC4 = [] ∧
    extract_submission_content envFail none subC4 = ((none, some "No attachments found."), subC4) :=
  ⟨by decide, claim_C4 envFail none subC4 (by decide)⟩

/-! ## Claim C5: mutation of the submission object -/

theorem apply_write_fields (s : Submission) (w : Option (List StudentFormData)) :
    (apply_write s w).id = s.id ∧ (apply_write s w).userId = s.userId ∧
    (apply_write s w).attachments = s.attachments ∧
    (apply_write s w).courseWork = s.courseWork ∧
    (apply_write s w).assignment_attachments = s.assignment_attachments ∧
    (apply_write s w).student_email = s.student_email := by
  cases w <;> exact ⟨rfl, rfl, rfl, rfl, rfl, rfl⟩

theorem gather_attachments_apply_write (ca : Option (List Attachment)) (s : Submission)
    (w : Option (List StudentFormData)) :
    gather_attachments ca (apply_write s w) = gather_attachments ca s := by
  cases w <;> rfl

theorem extract_state_eq_write (env : GraderEnv) (ca : Option (List Attachment))
    (sub : Submission) :
    (extract_submission_content env ca sub).2 =
      if (gather_attachments ca sub).isEmpty then sub
      else apply_write sub (loop_write env sub.student_email (gather_attachments ca sub)) := by
  rw [extract_submission_content_eq]
  by_cases hemp : (gather_attachments ca sub).isEmpty = true
  · rw [if_pos hemp, if_pos hemp]
  · rw [if_neg hemp, if_neg hemp]
    split <;> rfl

theorem extract_apply_write (env : GraderEnv) (ca : Option (List Attachment)) (sub : Submission)
    (w : Option (List StudentFormData)) :
    extract_submission_content env ca (apply_write sub w) =
      ((extract_submission_content env ca sub).1,
       apply_write sub
         (match loop_write env sub.student_email (gather_attachments ca sub) with
          | some d => some d
          | none => w)) := by
  rw [extract_submission_content_eq, extract_submission_content_eq,
    gather_attachments_apply_write, apply_write_student_email, apply_write_comp]
  by_cases hemp : (gather_attachments ca sub).isEmpty = true
  · have hnil : gather_attachments ca sub = [] := List.isEmpty_iff.mp hemp
    rw [if_pos hemp, if_pos hemp, hnil]
    rfl
  · rw [if_neg hemp, if_neg hemp]
    by_cases hres : ((gather_attachments ca sub).filterMap
        (att_success env sub.student_email)).isEmpty = false
    · rw [if_pos hres, if_pos hres]
    · rw [if_neg hres, if_neg hres]

/-- Claim C5 as amended: the pipeline leaves every field of the submission
unchanged except `form_response_data` (the key assigned by the form handler),
and re-running the extraction over the already-updated submission yields the
same (content, error) pair and the same final submission state. -/
theorem claim_C5_amended (env : GraderEnv) (ca : Option (List Attachment)) (sub : Submission) :
    ((extract_submission_content env ca sub).2.id = sub.id ∧
     (extract_submission_content env ca sub).2.userId = sub.userId ∧
     (extract_submission_content env ca sub).2.attachments = sub.attachments ∧
     (extract_submission_content env ca sub).2.courseWork = sub.courseWork ∧
     (extract_submission_content env ca sub).2.assignment_attachments =
       sub.assignment_attachments ∧
     (extract_submission_content env ca sub).2.student_email = sub.student_email) ∧
    extract_submission_content env ca (extract_submission_content env ca sub).2 =
      ((extract_submission_content env ca sub).1, (extract_submission_content env ca sub).2) := by
  have hst := extract_state_eq_write env ca sub
  by_cases hemp : (gather_attachments ca sub).isEmpty = true
  · rw [if_pos hemp] at hst
    constructor
    · rw [hst]
      exact ⟨rfl, rfl, rfl, rfl, rfl, rfl⟩
    · rw [hst]
      exact Prod.ext_iff.mpr ⟨rfl, hst⟩
  · rw [if_neg hemp] at hst
    constructor
    · rw [hst]
      exact apply_write_fields sub _
    · rw [hst, extract_apply_write]
      have hmatch :
          (match loop_write env sub.student_email (gather_attachments ca sub) with
           | some d => some d
           | none => loop_write env sub.student_email (gather_attachments ca sub)) =
          loop_write env sub.student_email (gather_attachments ca sub) := by
        cases loop_write env sub.student_email (gather_attachments ca sub) <;> rfl
      rw [hmatch]

/-- Environment serving the sample form and its single sample response. -/
def envC5 : GraderEnv :=
  { download_file_content := fun _ => .error (.apiError "service offline")
    parse_form_and_responses := fun _ => .ok (sample_form_structure, [sample_form_response])
    get_document_text := fun _ => .error (.apiError "service offline") }

/-- A submission carrying one form attachment that reaches the
`submission['form_response_data'] = ...` assignment. -/
def subC5 : Submission :=
  { id := some "s5"
    userId := some "u5"
    attachments :=
      [{ driveFile := none
         form := some { formUrl := some "https://docs.google.com/forms/d/FID/viewform"
                        responseUrl := none
                        title := some "Quiz" }
         link := none }]
    courseWork := none
    assignment_attachments := none
    student_email := none
    form_response_data := none }

/-- Claim C5 counterexample: extracting content for `subC5` mutates the
submission object — the form handler stores the extracted form data under the
`form_response_data` key, so the submission does not come back unchanged. -/
theorem claim_C5_counterexample :
    (extract_submission_content envC5 none subC5).2 ≠ subC5 ∧
    subC5.form_response_data = none ∧
    (extract_submission_content envC5 none subC5).2.form_response_data.isSome = true := by
  refine ⟨by decide, rfl, by decide⟩

/-! ## Claim C6: export versus raw download in DriveService -/

/-- Claim C6 as amended: export is requested exactly for the three
Workspace-native MIME types of the export table (with the fixed target
formats), and such a file is never downloaded raw; any other
`application/vnd.google-apps` MIME type is rejected with a
ContentExtractionError and no media request at all; every remaining MIME type
is downloaded raw, never exported, and the original MIME type is returned with
the bytes. -/
theorem claim_C6_amended (env : DriveEnv) (fid : String) (m : String)
    (hmeta : env.get_file_metadata fid = .ok (some m)) :
    (∀ t, GOOGLE_DOCS_MIME_TYPES m = some t →
      (download_file_content env fid).2 = [DriveCall.exportMedia fid t] ∧
      ∀ bs, env.execute_media_request (DriveCall.exportMedia fid t) = .ok bs →
        (download_file_content env fid).1 = .ok (some t, bs)) ∧
    (GOOGLE_DOCS_MIME_TYPES m = none → strStarts m "application/vnd.google-apps" = true →
      download_file_content env fid =
        (.error (.contentExtractionError
          ("Unsupported Google Workspace type for direct download: " ++ m)), [])) ∧
    (GOOGLE_DOCS_MIME_TYPES m = none → strStarts m "application/vnd.google-apps" = false →
      (download_file_content env fid).2 = [DriveCall.getMedia fid] ∧
      ∀ bs, env.execute_media_request (DriveCall.getMedia fid) = .ok bs →
        (download_file_content env fid).1 = .ok (some m, bs)) := by
  unfold download_file_content
  rw [hmeta]
  refine ⟨?_, ?_, ?_⟩
  · intro t ht
    simp only [ht]
    constructor
    · cases env.execute_media_request (DriveCall.exportMedia fid t) <;> rfl
    · intro bs hbs
      rw [hbs]
  · intro hnone hgoogle
    simp only [hnone, hgoogle, if_true]
    rfl
  · intro hnone hgoogle
    simp only [hnone, hgoogle, Bool.false_eq_true, if_false]
    constructor
    · cases env.execute_media_request (DriveCall.getMedia fid) <;> rfl
    · intro bs hbs
      rw [hbs]

/-- Environment whose file metadata reports the Google Forms Workspace MIME
type, with a media executor that would happily return bytes. -/
def driveEnvC6 : DriveEnv :=
  { get_file_metadata := fun _ => .ok (some "application/vnd.google-apps.form")
    execute_media_request := fun _ => .ok [104] }

/-- Claim C6 counterexample: `application/vnd.google-apps.form` is not one of
the three Workspace-native export types, yet `download_file_content` neither
downloads it raw nor returns its bytes — it raises a ContentExtractionError
and issues no media request, contradicting the claim that every non-Workspace
MIME type is downloaded raw with the original MIME type returned. -/
theorem claim_C6_counterexample :
    GOOGLE_DOCS_MIME_TYPES "application/vnd.google-apps.form" = none ∧
    download_file_content driveEnvC6 "file1" =
      (.error (.contentExtractionError
        ("Unsupported Google Workspace type for direct download: "
          ++ "application/vnd.google-apps.form")), []) := by
  exact ⟨rfl, rfl⟩

/-- Environment serving a Workspace document for one file id and a plain PDF
for another. -/
def driveEnvC6w : DriveEnv :=
  { get_file_metadata := fun fid =>
      if fid == "doc1" then .ok (some "application/vnd.google-apps.document")
      else .ok (some "application/pdf")
    execute_media_request := fun _ => .ok [37, 80, 68, 70] }

theorem claim_C6_amended_witness :
    ((download_file_content driveEnvC6w "doc1").2 =
        [DriveCall.exportMedia "doc1" "text/plain"] ∧
      (download_file_content driveEnvC6w "doc1").1 =
        .ok (some "text/plain", [37, 80, 68, 70])) ∧
    ((download_file_content driveEnvC6w "pdf1").2 = [DriveCall.getMedia "pdf1"] ∧
      (download_file_content driveEnvC6w "pdf1").1 =
        .ok (some "application/pdf", [37, 80, 68, 70])) := by
  have h1 := claim_C6_amended driveEnvC6w "doc1" "application/vnd.google-apps.document" rfl
  have h2 := claim_C6_amended driveEnvC6w "pdf1" "application/pdf" rfl
  obtain ⟨he1, -, -⟩ := h1
  obtain ⟨-, -, hr2⟩ := h2
  obtain ⟨htr1, hok1⟩ := he1 "text/plain" rfl
  obtain ⟨htr2, hok2⟩ := hr2 rfl rfl
  exact ⟨⟨htr1, hok1 _ rfl⟩, ⟨htr2, hok2 _ rfl⟩⟩

/-! ## Claims C7 and C8: form response matching -/

theorem match_responses_aux (es : List String) :
    ∀ (rs : List FormResponse) (init : List (String × FormResponse)),
      (∀ p ∈ init, p.2.respondentEmail.isSome = true) →
      ∀ p ∈ rs.foldl
        (fun email_to_response response =>
          match response.respondentEmail with
          | some e =>
            if !e.isEmpty && es.contains e then
              pyDictInsert email_to_response e response
            else email_to_response
          | none => email_to_response)
        init, p.2.respondentEmail.isSome = true := by
  intro rs
  induction rs with
  | nil =>
    intro init hinit p hp
    exact hinit p hp
  | cons r rest ih =>
    intro init hinit p hp
    rw [List.foldl_cons] at hp
    refine ih _ ?_ p hp
    intro q hq
    rcases hre : r.respondentEmail with _ | e
    · simp only [hre] at hq
      exact hinit q hq
    · simp only [hre] at hq
      by_cases hc : (!e.isEmpty && es.contains e) = true
    
      · rw [if_pos hc] at hq
        rcases pyDictInsert_mem _ _ _ _ hq with hmem | hval
        · exact hinit q hmem
        · rw [hval, hre]
          rfl
      · rw [if_neg hc] at hq
        exact hinit q hq

theorem match_responses_values (rs : List FormResponse) (es : List String) :
    ∀ p ∈ match_responses_to_emails rs es, p.2.respondentEmail.isSome = true := by
  intro p hp
  unfold match_responses_to_emails at hp
  refine match_responses_aux es rs [] ?_ p hp
  intro q hq
  cases hq

/-- Claim C7: the email match is attempted first, and when it selects a
response, that response is the single candidate — the response-URL id match is
never consulted, whatever the response URL says. -/
theorem claim_C7 (all_responses : List FormResponse) (e : String) (r : FormResponse)
    (response_url : Option String)
    (hmatch : email_match all_responses (some e) = some r) :
    form_matching all_responses (some e) response_url = [r] := by
  have hr : r.respondentEmail.isSome = true := by
    unfold email_match at hmatch
    by_cases ht : optTruthy (some e) = true
    · rw [if_pos ht] at hmatch
      obtain ⟨p, hp, hpv⟩ := pyDictGet_mem _ _ _ hmatch
      rw [← hpv]
      exact match_responses_values _ _ p hp
    · rw [if_neg ht] at hmatch
      cases hmatch
  have hfalsy : pyRespFalsy r = false := by
    unfold pyRespFalsy
    cases hre : r.respondentEmail with
    | none => rw [hre] at hr; cases hr
    | some _ => rfl
  unfold form_matching
  dsimp only
  rw [hmatch]
  simp only [pyOptRespFalsy, hfalsy, Bool.false_and, Bool.false_eq_true, if_false]

/-- The response used by the email-first match and the response designated by
the response URL in the witness disagree, and the email match wins. -/
def respA : FormResponse :=
  { respondentEmail := some "a@x.com", responseId := some "RA", answers := none,
    totalScore := none }

/-- A second response, without respondent email, carrying the id the response
URL points at. -/
def respB : FormResponse :=
  { respondentEmail := none, responseId := some "RB", answers := none, totalScore := none }

theorem claim_C7_witness :
    email_match [respA, respB] (some "a@x.com") = some respA ∧
    id_match [respA, respB] "https://docs.google.com/forms/d/F/viewresponse?id=RB" = some respB ∧
    form_matching [respA, respB] (some "a@x.com")
      (some "https://docs.google.com/forms/d/F/viewresponse?id=RB") = [respA] :=
  ⟨by decide, by decide,
    claim_C7 [respA, respB] "a@x.com" respA
      (some "https://docs.google.com/forms/d/F/viewresponse?id=RB") (by decide)⟩

theorem form_matching_all (rs : List FormResponse) (email ru : Option String)
    (hemail : email_match rs email = none)
    (hid : (if (optTruthy ru && strContains (ru.getD "") "/viewresponse?id=") = true
        then id_match rs (ru.getD "") else none) = none) :
    form_matching rs email ru = rs := by
  unfold form_matching
  dsimp only
  rw [hemail]
  simp only [pyOptRespFalsy, Bool.true_and]
  rcases hc : optTruthy ru && strContains (ru.getD "") "/viewresponse?id=" with _ | _
  · simp
  · rw [if_pos hc] at hid
    simp [hid]

/-- The content built by `handle_form` when the whole fetched response list is
the candidate set: the transcripts of all responses, joined with the separator
when there are several. -/
def form_all_content (form_structure : FormStructure) (rs : List FormResponse) : String :=
  match format_responses_for_llm form_structure rs with
  | [] => ""
  | fr :: rest =>
    if rest.isEmpty = false then
      pyJoin "\n\n---\n\n" ((fr :: rest).map (fun x => x.formatted_text))
    else fr.formatted_text

/-- Claim C8: when neither the email match nor the response-URL id match
selects a response, `handle_form` treats all fetched responses as candidates —
it renders and concatenates the transcripts of every response — and fails only
when the fetched response list is itself empty. -/
theorem claim_C8 (env : GraderEnv) (email : Option String) (att : FormAtt) (fid : String)
    (fs : FormStructure) (rs : List FormResponse)
    (hurl : optTruthy att.formUrl = true)
    (hfid : parse_form_id (att.formUrl.getD "") = some fid)
    (henv : env.parse_form_and_responses fid = .ok (fs, rs))
    (hemail : email_match rs email = none)
    (hid : (if (optTruthy att.responseUrl
          && strContains (att.responseUrl.getD "") "/viewresponse?id=") = true
        then id_match rs (att.responseUrl.getD "") else none) = none) :
    form_matching rs email att.responseUrl = rs ∧
    (rs = [] → (handle_form env email att).1 =
      (none, some ("No responses found or matched for form '"
        ++ att.title.getD "Untitled Form" ++ "'."))) ∧
    (rs ≠ [] → (handle_form env email att).1 = (some (form_all_content fs rs), none)) := by
  have hall : form_matching rs email att.responseUrl = rs :=
    form_matching_all rs email att.responseUrl hemail hid
  refine ⟨hall, ?_, ?_⟩
  · intro hnil
    unfold handle_form
    dsimp only
    rw [if_neg (by simp [hurl])]
    simp only [hfid, henv]
    rw [hall, hnil]
    rfl
  · intro hne
    unfold handle_form
    dsimp only
    rw [if_neg (by simp [hurl])]
    simp only [hfid, henv, hall]
    have hmne : rs.isEmpty = false := by
      cases rs with
      | nil => exact absurd rfl hne
      | cons a l => rfl
    simp only [hmne, Bool.false_eq_true, if_false]
    unfold form_all_content
    cases hf : format_responses_for_llm fs rs with
    | nil =>
      exfalso
      unfold format_responses_for_llm at hf
      rw [List.map_eq_nil_iff] at hf
      exact hne hf
    | cons fr rest => rfl

/-- A form attachment pointing at the sample form, with no response URL. -/
def attC8 : FormAtt :=
  { formUrl := some "https://docs.google.com/forms/d/FID/viewform"
    responseUrl := none
    title := some "Quiz" }

theorem claim_C8_witness :
    form_matching [sample_form_response] none attC8.responseUrl = [sample_form_response] ∧
    (handle_form envC5 none attC8).1 =
      (some (form_all_content sample_form_structure [sample_form_response]), none) := by
  have h := claim_C8 envC5 none attC8 "FID" sample_form_structure [sample_form_response]
    (by decide) (by decide) rfl (by decide) (by decide)
  exact ⟨h.1, h.2.2 (by decide)⟩

/-! ## Claim C9: the link extractor -/

/-- Environment with a working document-text reader. -/
def envDocs : GraderEnv :=
  { download_file_content := fun _ => .error (.apiError "service offline")
    parse_form_and_responses := fun _ => .error (.apiError "service offline")
    get_document_text := fun _ => .ok "doc text" }

/-- A link attachment whose URL is on docs.google.com but is not a document
URL (no /d/ segment). -/
def linkC9 : LinkAtt :=
  { url := some "https://docs.google.com/forms/abc", title := some "T" }

/-- Claim C9 counterexample: for a docs.google.com URL that is not a document
link, the handler answers "Could not extract doc ID from link: {url}" — an
error that is not the "not supported" message and does not name the
attachment title. -/
theorem claim_C9_counterexample :
    handle_link envDocs linkC9 =
      ((none, some "Could not extract doc ID from link: https://docs.google.com/forms/abc"),
       []) ∧
    strContains "Could not extract doc ID from link: https://docs.google.com/forms/abc"
      "not supported" = false ∧
    strContains "Could not extract doc ID from link: https://docs.google.com/forms/abc"
      "T" = false := by
  refine ⟨by decide, by decide, by decide⟩

/-- Claim C9 as amended: a link whose URL is absent, empty, or does not even
contain "docs.google.com" gets the explicit "not supported" failure naming the
title, and the handler fetches no document (and has no web-fetch capability at
all). URLs containing "docs.google.com" without an extractable /d/ doc id get
a distinct "Could not extract doc ID" failure instead. -/
theorem claim_C9_amended (env : GraderEnv) (att : LinkAtt)
    (h : optTruthy att.url = false ∨ strContains (att.url.getD "") "docs.google.com" = false) :
    handle_link env att =
      ((none, some ("Link attachment '" ++ att.title.getD "Untitled Link"
        ++ "' not supported or not a Google Doc.")), []) := by
  have hnot : ¬((optTruthy att.url
      && (strContains (att.url.getD "") "docs.google.com/document"
        || strContains (att.url.getD "") "docs.google.com")) = true) := by
    rcases h with hu | hc
    · simp [hu]
    · have hdoc : strContains (att.url.getD "") "docs.google.com/document" = false := by
        rcases hd : strContains (att.url.getD "") "docs.google.com/document" with _ | _
        · rfl
        · exact absurd (strContains_of_longer (att.url.getD "") "docs.google.com"
            "docs.google.com/document" (by decide) hd) (by simp [hc])
      simp [hc, hdoc]
  unfold handle_link
  dsimp only
  rw [if_neg hnot]

/-- A link attachment to an ordinary web page. -/
def linkW9 : LinkAtt := { url := some "https://example.com/page", title := some "ext" }

theorem claim_C9_amended_witness :
    handle_link envDocs linkW9 =
      ((none, some ("Link attachment '" ++ linkW9.title.getD "Untitled Link"
        ++ "' not supported or not a Google Doc.")), []) :=
  claim_C9_amended envDocs linkW9 (Or.inr (by decide))

/-! ## Claim C10: the decode-failure branch is unreachable -/

/-- Claim C10: the latin-1 fallback decodes every possible byte sequence, so
for every non-empty payload with a textual MIME type the Drive handler returns
decoded (non-empty) text and never the "Could not decode file ... as text"
error. -/
theorem claim_C10 :
    (∀ bs : List UInt8, (latin1Decode bs).isSome = true) ∧
    (∀ (env : GraderEnv) (att : DriveFileAtt) (m : String) (bs : List UInt8),
      optTruthy att.id = true →
      env.download_file_content (att.id.getD "") = .ok (some m, some bs) →
      strStarts m "text/" = true →
      bs ≠ [] →
      ∃ c, handle_drive_file env att = (some c, none) ∧ c ≠ "") := by
  constructor
  · intro bs
    exact latin1Decode_isSome bs
  · intro env att m bs hid henv hm hbs
    unfold handle_drive_file
    dsimp only
    rw [if_neg (by simp [hid])]
    simp only [henv]
    have hbt : bytesTruthy (some bs) = true := by
      unfold bytesTruthy
      cases bs with
      | nil => exact absurd rfl hbs
      | cons b tl => rfl
    rw [if_neg (by simp [hbt])]
    have hopt : optTruthy (some m) = true := by
      cases hie : m.isEmpty with
      | false => simp [optTruthy, hie]
      | true =>
        exfalso
        rw [String.isEmpty_iff] at hie
        rw [hie] at hm
        exact absurd hm (by decide)
    rw [if_pos (by rw [Option.getD_some, hopt, hm]; rfl)]
    simp only [Option.getD_some]
    cases hdec : utf8Decode bs with
    | some cs =>
      simp only [hdec]
      exact ⟨String.mk cs, rfl, str_mk_ne_empty cs (utf8Decode_ne_nil' bs cs hbs hdec)⟩
    | none =>
      simp only [hdec]
      cases hlat : latin1Decode bs with
      | none =>
        exfalso
        have := latin1Decode_isSome bs
        rw [hlat] at this
        cases this
      | some cs =>
        simp only [hlat]
        exact ⟨String.mk cs, rfl, str_mk_ne_empty cs (latin1Decode_ne_nil' bs cs hbs hlat)⟩

/-- Environment serving a text file whose single byte is not valid utf-8, so
the latin-1 fallback is exercised. -/
def envC10 : GraderEnv :=
  { download_file_content := fun _ => .ok (some "text/plain", some [0xFF])
    parse_form_and_responses := fun _ => .error (.apiError "service offline")
    get_document_text := fun _ => .error (.apiError "service offline") }

/-- The Drive attachment used in the C10 witness. -/
def attC10 : DriveFileAtt := { id := some "f10", title := some "notes.txt" }

theorem claim_C10_witness :
    (latin1Decode [0xFF]).isSome = true ∧
    (∃ c, handle_drive_file envC10 attC10 = (some c, none) ∧ c ≠ "") :=
  ⟨claim_C10.1 [0xFF],
   claim_C10.2 envC10 attC10 "text/plain" [0xFF] (by decide) rfl (by decide) (by decide)⟩

/-- A submission whose single attachment is a form (with form id FORMID99 in
its URL) that fails to extract. -/
def subC3form : Submission :=
  { id := some "s3f"
    userId := some "u3f"
    attachments :=
      [{ driveFile := none
         form := some { formUrl := some "https://docs.google.com/forms/d/FORMID99/viewform"
                        responseUrl := none
                        title := some "Quiz" }
         link := none }]
    courseWork := none
    assignment_attachments := none
    student_email := none
    form_response_data := none }

/-- Claim C3 counterexample: when the only failed attachment is a form, its
sub-message is tagged "Form[Quiz]" — kind and title only. Neither the form
identifier FORMID99 nor its URL appears anywhere in the aggregate error, so
the sub-message is not tagged with a descriptor carrying an identifier. -/
theorem claim_C3_counterexample :
    (extract_submission_content envFail none subC3form).1 =
      (none, some ("No supported attachment type found or content extracted. Details:\n"
        ++ "Attachment Form[Quiz]: Error accessing form 'Quiz': service offline")) ∧
    describe_attachment
      { driveFile := none
        form := some { formUrl := some "https://docs.google.com/forms/d/FORMID99/viewform"
                       responseUrl := none
                       title := some "Quiz" }
        link := none } = "Form[Quiz]" ∧
    strContains ("No supported attachment type found or content extracted. Details:\n"
      ++ "Attachment Form[Quiz]: Error accessing form 'Quiz': service offline")
      "FORMID99" = false := by
  refine ⟨by decide, by decide, by decide⟩
